import Mathlib

/-!
Verification development for the TAVA GPIO control-panel repository.

The development shallowly embeds the pin-configuration model of the
repository: the configuration mapping (a Python dict from pin-identifier
strings to function-name strings, embedded as an insertion-ordered
association list), the JSON persistence layer of `Scripts/config_manager.py`
(`json.dump(config, f, indent=4)` / `json.load`), the grouped-assignment
logic of `Scripts/config_window.py` (`save_assignment`), the deletion path
of `Scripts/main_window.py` (`delete_gpio`), the startup clearing logic
(`clear_config_on_startup` / `run_app`), the mic push-to-talk edge
detection of `Scripts/main_window.py` (`start_pin_monitoring`), the
indicator refresh loop of `Scripts/control_panel.py` (`update_indicators`),
the analog smoothing of `start_analog_monitoring`, and the simulated GPIO
fallback of `Scripts/gpio_handler.py`.
-/

namespace TAVA

/-- The in-memory configuration mapping: Python dict from pin-identifier
strings to function-name strings. A Python dict preserves insertion order,
so it is embedded as an association list where `setKey` updates an existing
key in place and appends a fresh key at the end, exactly as
`config_data[k] = v` behaves. -/
abbrev Config := List (String × String)

/-- Embedding of `config_data[k] = v` on a Python dict: replace the value of
an existing key, keeping its position, otherwise append the new pair. -/
def setKey : Config → String → String → Config
  | [], k, v => [(k, v)]
  | (k0, v0) :: rest, k, v =>
      if k0 = k then (k, v) :: rest else (k0, v0) :: setKey rest k v

/-- Embedding of `del config_data[k]` on a Python dict: remove the (unique)
entry with key `k`, leaving every other entry in place. -/
def delKey : Config → String → Config
  | [], _ => []
  | (k0, v0) :: rest, k =>
      if k0 = k then rest else (k0, v0) :: delKey rest k

/-- Pin constant `NOSE_GEAR_PIN = 13` from `Scripts/constants.py`. -/
def NOSE_GEAR_PIN : Nat := 13

/-- Pin constant `LEFT_GEAR_PIN = 19` from `Scripts/constants.py`. -/
def LEFT_GEAR_PIN : Nat := 19

/-- Pin constant `RIGHT_GEAR_PIN = 26` from `Scripts/constants.py`. -/
def RIGHT_GEAR_PIN : Nat := 26

/-- Pin constant `LEFT_NAV_PIN = 22` from `Scripts/constants.py`. -/
def LEFT_NAV_PIN : Nat := 22

/-- Pin constant `RIGHT_NAV_PIN = 23` from `Scripts/constants.py`. -/
def RIGHT_NAV_PIN : Nat := 23

/-- Pin constant `TAIL_NAV_PIN = 24` from `Scripts/constants.py`. -/
def TAIL_NAV_PIN : Nat := 24

/-- Pin constant `MIC_CONTROL_PIN = 4` from `Scripts/constants.py`. -/
def MIC_CONTROL_PIN : Nat := 4

/-- Constant `ANALOG_INPUT_MODULE_ID = "2,3"` from `Scripts/constants.py`. -/
def ANALOG_INPUT_MODULE_ID : String := "2,3"

/-- Embedding of the configuration-mutation part of `save_assignment` in
`Scripts/config_window.py` (lines 388-427): `"Landing Gear Control"` writes
the three gear pins (primary unsuffixed, then `" (Left)"` and `" (Right)"`),
`"Nav Light Toggle"` writes the three nav pins (primary unsuffixed, then
`" (Right)"` and `" (Tail)"`), `"Analog Input Module"` writes the reserved
`"2,3"` key, and any other function writes the single selected pin. -/
def save_assignment (cfg : Config) (function pin : String) : Config :=
  if function = "Landing Gear Control" then
    setKey (setKey (setKey cfg (toString NOSE_GEAR_PIN) function)
        (toString LEFT_GEAR_PIN) (function ++ " (Left)"))
      (toString RIGHT_GEAR_PIN) (function ++ " (Right)")
  else if function = "Nav Light Toggle" then
    setKey (setKey (setKey cfg (toString LEFT_NAV_PIN) function)
        (toString RIGHT_NAV_PIN) (function ++ " (Right)"))
      (toString TAIL_NAV_PIN) (function ++ " (Tail)")
  else if function = "Analog Input Module" then
    setKey cfg ANALOG_INPUT_MODULE_ID function
  else
    setKey cfg pin function

/-- Embedding of `is_function_configured` from `Scripts/utils.py`:
`any(val == function_name for val in config_data.values())`. -/
def is_function_configured (cfg : Config) (functionName : String) : Bool :=
  cfg.any (fun kv => kv.2 = functionName)

/-- Embedding of `is_mic_and_analog_configured` from `Scripts/utils.py`:
both `"Mic Control"` and `"Analog Input Module"` must appear as values. -/
def is_mic_and_analog_configured (cfg : Config) : Bool :=
  is_function_configured cfg "Mic Control" &&
    is_function_configured cfg "Analog Input Module"

theorem lookup_cons_eq (k v : String) (rest : Config) :
    ((k, v) :: rest).lookup k = some v := by
  simp [List.lookup]

theorem lookup_cons_ne (k0 v0 k : String) (rest : Config) (h : k ≠ k0) :
    ((k0, v0) :: rest).lookup k = rest.lookup k := by
  have hb : (k == k0) = false := beq_eq_false_iff_ne.mpr h
  simp [List.lookup, hb]

theorem lookup_setKey_self (cfg : Config) (k v : String) :
    (setKey cfg k v).lookup k = some v := by
  induction cfg with
  | nil => simp [setKey, List.lookup]
  | cons kv rest ih =>
      obtain ⟨k0, v0⟩ := kv
      by_cases h : k0 = k
      · simp [setKey, h, lookup_cons_eq]
      · rw [setKey, if_neg h, lookup_cons_ne k0 v0 k _ (Ne.symm h), ih]

theorem lookup_setKey_other (cfg : Config) (k v k2 : String) (hne : k2 ≠ k) :
    (setKey cfg k v).lookup k2 = cfg.lookup k2 := by
  induction cfg with
  | nil =>
      rw [setKey, lookup_cons_ne _ _ _ _ hne]
  | cons kv rest ih =>
      obtain ⟨k0, v0⟩ := kv
      by_cases h : k0 = k
      · subst h
        rw [setKey, if_pos rfl, lookup_cons_ne _ _ _ _ hne,
          lookup_cons_ne _ _ _ _ hne]
      · rw [setKey, if_neg h]
        by_cases h2 : k2 = k0
        · subst h2
          rw [lookup_cons_eq, lookup_cons_eq]
        · rw [lookup_cons_ne _ _ _ _ h2, lookup_cons_ne _ _ _ _ h2, ih]

theorem lookup_delKey_other (cfg : Config) (k k2 : String) (hne : k2 ≠ k) :
    (delKey cfg k).lookup k2 = cfg.lookup k2 := by
  induction cfg with
  | nil => simp [delKey]
  | cons kv rest ih =>
      obtain ⟨k0, v0⟩ := kv
      by_cases h : k0 = k
      · subst h
        rw [delKey, if_pos rfl, lookup_cons_ne _ _ _ _ hne]
      · rw [delKey, if_neg h]
        by_cases h2 : k2 = k0
        · subst h2
          rw [lookup_cons_eq, lookup_cons_eq]
        · rw [lookup_cons_ne _ _ _ _ h2, lookup_cons_ne _ _ _ _ h2, ih]

theorem lookup_eq_none_of_not_mem_keys (cfg : Config) (k : String)
    (h : k ∉ cfg.map Prod.fst) : cfg.lookup k = none := by
  induction cfg with
  | nil => simp [List.lookup]
  | cons kv rest ih =>
      obtain ⟨k0, v0⟩ := kv
      simp only [List.map_cons, List.mem_cons, not_or] at h
      rw [lookup_cons_ne _ _ _ _ h.1, ih h.2]

theorem lookup_delKey_self (cfg : Config) (k : String)
    (hnd : (cfg.map Prod.fst).Nodup) :
    (delKey cfg k).lookup k = none := by
  induction cfg with
  | nil => simp [delKey, List.lookup]
  | cons kv rest ih =>
      obtain ⟨k0, v0⟩ := kv
      simp only [List.map_cons, List.nodup_cons] at hnd
      by_cases h : k0 = k
      · subst h
        rw [delKey, if_pos rfl]
        exact lookup_eq_none_of_not_mem_keys rest k0 hnd.1
      · rw [delKey, if_neg h, lookup_cons_ne _ _ _ _ (Ne.symm h), ih hnd.2]

/-- Embedding of the configuration-mutation part of `delete_gpio` in
`Scripts/main_window.py` (lines 253-301), after the operator confirms: if
`str(pin)` is a key of the mapping, that single entry is deleted (and the
mapping saved); otherwise nothing changes. -/
def delete_gpio (cfg : Config) (pin : Nat) : Config :=
  if (cfg.lookup (toString pin)).isSome then delKey cfg (toString pin) else cfg

theorem delete_gpio_eq_delKey (cfg : Config) (pin : Nat) :
    delete_gpio cfg pin = delKey cfg (toString pin) := by
  unfold delete_gpio
  by_cases h : (cfg.lookup (toString pin)).isSome
  · rw [if_pos h]
  · rw [if_neg h]
    simp only [Option.isSome_iff_exists, not_exists] at h
    have hnone : cfg.lookup (toString pin) = none := by
      cases hl : cfg.lookup (toString pin) with
      | none => rfl
      | some v => exact absurd hl (h v)
    clear h
    induction cfg with
    | nil => rfl
    | cons kv rest ih =>
        obtain ⟨k0, v0⟩ := kv
        by_cases hk : k0 = toString pin
        · subst hk
          rw [lookup_cons_eq] at hnone
          cases hnone
        · rw [lookup_cons_ne _ _ _ _ (Ne.symm hk)] at hnone
          rw [delKey, if_neg hk, ← ih hnone]

theorem setKey3_lookup (cfg : Config) (k1 v1 k2 v2 k3 v3 : String)
    (h12 : k1 ≠ k2) (h13 : k1 ≠ k3) (h23 : k2 ≠ k3) :
    (setKey (setKey (setKey cfg k1 v1) k2 v2) k3 v3).lookup k1 = some v1 ∧
    (setKey (setKey (setKey cfg k1 v1) k2 v2) k3 v3).lookup k2 = some v2 ∧
    (setKey (setKey (setKey cfg k1 v1) k2 v2) k3 v3).lookup k3 = some v3 ∧
    ∀ k, k = k1 ∨ k = k2 ∨ k = k3 ∨
      (setKey (setKey (setKey cfg k1 v1) k2 v2) k3 v3).lookup k = cfg.lookup k := by
  refine ⟨?_, ?_, ?_, ?_⟩
  · rw [lookup_setKey_other _ _ _ _ h13, lookup_setKey_other _ _ _ _ h12,
      lookup_setKey_self]
  · rw [lookup_setKey_other _ _ _ _ h23, lookup_setKey_self]
  · rw [lookup_setKey_self]
  · intro k
    by_cases e1 : k = k1
    · exact Or.inl e1
    by_cases e2 : k = k2
    · exact Or.inr (Or.inl e2)
    by_cases e3 : k = k3
    · exact Or.inr (Or.inr (Or.inl e3))
    refine Or.inr (Or.inr (Or.inr ?_))
    rw [lookup_setKey_other _ _ _ _ e3, lookup_setKey_other _ _ _ _ e2,
      lookup_setKey_other _ _ _ _ e1]

/-- C1: assigning `"Landing Gear Control"` through the configuration editor
always populates exactly the three entries for pins 13, 19 and 26 (primary
unsuffixed, the others suffixed `" (Left)"` and `" (Right)"`), and assigning
`"Nav Light Toggle"` always populates exactly the three entries for pins
22, 23 and 24 (primary unsuffixed, the others suffixed `" (Right)"` and
`" (Tail)"`): starting from any configuration the three group keys hold the
documented values and every other key is untouched, and starting from the
empty configuration the result is exactly the three-entry mapping. -/
theorem save_assignment_grouped (cfg : Config) (pin : String) :
    ((save_assignment cfg "Landing Gear Control" pin).lookup "13" =
        some "Landing Gear Control" ∧
      (save_assignment cfg "Landing Gear Control" pin).lookup "19" =
        some "Landing Gear Control (Left)" ∧
      (save_assignment cfg "Landing Gear Control" pin).lookup "26" =
        some "Landing Gear Control (Right)" ∧
      ∀ k, k = "13" ∨ k = "19" ∨ k = "26" ∨
        (save_assignment cfg "Landing Gear Control" pin).lookup k =
          cfg.lookup k) ∧
    save_assignment [] "Landing Gear Control" pin =
      [("13", "Landing Gear Control"), ("19", "Landing Gear Control (Left)"),
        ("26", "Landing Gear Control (Right)")] ∧
    ((save_assignment cfg "Nav Light Toggle" pin).lookup "22" =
        some "Nav Light Toggle" ∧
      (save_assignment cfg "Nav Light Toggle" pin).lookup "23" =
        some "Nav Light Toggle (Right)" ∧
      (save_assignment cfg "Nav Light Toggle" pin).lookup "24" =
        some "Nav Light Toggle (Tail)" ∧
      ∀ k, k = "22" ∨ k = "23" ∨ k = "24" ∨
        (save_assignment cfg "Nav Light Toggle" pin).lookup k =
          cfg.lookup k) ∧
    save_assignment [] "Nav Light Toggle" pin =
      [("22", "Nav Light Toggle"), ("23", "Nav Light Toggle (Right)"),
        ("24", "Nav Light Toggle (Tail)")] := by
  have hgear : save_assignment cfg "Landing Gear Control" pin =
      setKey (setKey (setKey cfg "13" "Landing Gear Control") "19"
        "Landing Gear Control (Left)") "26" "Landing Gear Control (Right)" := rfl
  have hnav : save_assignment cfg "Nav Light Toggle" pin =
      setKey (setKey (setKey cfg "22" "Nav Light Toggle") "23"
        "Nav Light Toggle (Right)") "24" "Nav Light Toggle (Tail)" := rfl
  refine ⟨?_, rfl, ?_, rfl⟩
  · rw [hgear]
    exact setKey3_lookup cfg _ _ _ _ _ _ (by decide) (by decide) (by decide)
  · rw [hnav]
    exact setKey3_lookup cfg _ _ _ _ _ _ (by decide) (by decide) (by decide)

/-- C10: deleting the configuration for a pin removes at most the single
entry keyed by `str(pin)` and leaves every other entry unchanged; in
particular deleting the primary pin 13 of a `"Landing Gear Control"` group
leaves the suffixed entries for pins 19 and 26 orphaned in the mapping. -/
theorem delete_gpio_single_entry (cfg : Config) (pin : Nat)
    (hnd : (cfg.map Prod.fst).Nodup) :
    (delete_gpio cfg pin).lookup (toString pin) = none ∧
    (∀ k, k = toString pin ∨ (delete_gpio cfg pin).lookup k = cfg.lookup k) ∧
    delete_gpio (save_assignment [] "Landing Gear Control" "13") 13 =
      [("19", "Landing Gear Control (Left)"),
        ("26", "Landing Gear Control (Right)")] := by
  refine ⟨?_, ?_, by decide⟩
  · rw [delete_gpio_eq_delKey]
    exact lookup_delKey_self cfg _ hnd
  · intro k
    by_cases e : k = toString pin
    · exact Or.inl e
    · refine Or.inr ?_
      rw [delete_gpio_eq_delKey]
      exact lookup_delKey_other cfg _ _ e

/-- Witness for `delete_gpio_single_entry`: deleting pin 13 from the freshly
assigned landing-gear configuration removes exactly the `"13"` entry. -/
theorem delete_gpio_single_entry_witness :
    (delete_gpio (save_assignment [] "Landing Gear Control" "13") 13).lookup
      (toString 13) = none :=
  (delete_gpio_single_entry (save_assignment [] "Landing Gear Control" "13")
    13 (by decide)).1

/-- Character class accepted without escaping by the model of
`json.dump`: printable ASCII other than the double quote and the
backslash. The pin-identifier and function-name strings of this program
(digits, letters, spaces, parentheses, a comma) all lie in this class. -/
def plainChar (c : Char) : Bool :=
  32 ≤ c.toNat && c.toNat ≤ 126 && c ≠ '"' && c ≠ '\\'

/-- A string all of whose characters are serialized verbatim by
`json.dump` (no escape sequences). -/
def plainStr (s : String) : Bool := s.data.all plainChar

/-- Every key and value of the mapping is serialized verbatim. -/
def plainConfig (m : Config) : Bool :=
  m.all (fun kv => plainStr kv.1 && plainStr kv.2)

/-- Characters of one pretty-printed member line of
`json.dump(config, f, indent=4)`: four spaces of indent, the quoted key,
a colon and a space, the quoted value. -/
def entryChars (kv : String × String) : List Char :=
  ' ' :: ' ' :: ' ' :: ' ' :: '"' ::
    (kv.1.data ++ '"' :: ':' :: ' ' :: '"' :: (kv.2.data ++ ['"']))

/-- Member lines joined by `",\n"`, as `json.dump` emits them. -/
def entriesChars : Config → List Char
  | [] => []
  | [kv] => entryChars kv
  | kv :: rest => entryChars kv ++ ',' :: '\n' :: entriesChars rest

/-- Characters written by `json.dump(config, f, indent=4)` in
`Scripts/config_manager.py`: `{}` for the empty dict, otherwise the brace
block with one indented member per line. -/
def dumpChars : Config → List Char
  | [] => ['{', '}']
  | kv :: rest => '{' :: '\n' :: (entriesChars (kv :: rest) ++ ['\n', '}'])

/-- File text produced by `json.dump(config, f, indent=4)`. -/
def dumpConfig (m : Config) : String := String.mk (dumpChars m)

/-- JSON insignificant whitespace test, as `json.load` skips it. -/
def isWsChar (c : Char) : Bool := c = ' ' || c = '\n' || c = '\t' || c = '\r'

/-- Skip insignificant whitespace. -/
def skipWs : List Char → List Char
  | [] => []
  | c :: cs => if isWsChar c then skipWs cs else c :: cs

/-- Read the body of a quoted string up to the closing quote. The model
covers exactly the escape-free strings that `dumpConfig` emits; an escape
sequence makes the model parser fail rather than misread. -/
def takeStr : List Char → Option (List Char × List Char)
  | [] => none
  | c :: cs =>
      if c = '"' then some ([], cs)
      else if c = '\\' then none
      else (takeStr cs).map (fun p => (c :: p.1, p.2))

/-- Read a quoted JSON string literal. -/
def takeStrLit : List Char → Option (String × List Char)
  | [] => none
  | c :: cs1 =>
      if c = '"' then (takeStr cs1).map (fun p => (String.mk p.1, p.2))
      else none

/-- Read the members of a flat JSON object after the opening brace, as
`json.load` does for the configuration file: `"key": "value"` pairs
separated by commas, terminated by the closing brace. The fuel argument
bounds the number of members. -/
def takeMembers : Nat → List Char → Option (Config × List Char)
  | 0, _ => none
  | Nat.succ fuel, cs =>
      match takeStrLit (skipWs cs) with
      | none => none
      | some (k, cs1) =>
          match skipWs cs1 with
          | [] => none
          | c2 :: cs2 =>
              if c2 = ':' then
                match takeStrLit (skipWs cs2) with
                | none => none
                | some (v, cs3) =>
                    match skipWs cs3 with
                    | [] => none
                    | c4 :: cs4 =>
                        if c4 = ',' then
                          match takeMembers fuel cs4 with
                          | some (ms, rest) => some ((k, v) :: ms, rest)
                          | none => none
                        else if c4 = '}' then some ([(k, v)], cs4)
                        else none
              else none

/-- Parse the whole configuration file as a flat JSON object with string
values, the shape `json.load` reads back from `save_config`. `none` models
`json.JSONDecodeError`. -/
def parseConfig (s : String) : Option Config :=
  match skipWs s.data with
  | [] => none
  | c :: cs =>
      if c = '{' then
        match skipWs cs with
        | [] => none
        | c2 :: cs2 =>
            if c2 = '}' then (if skipWs cs2 = [] then some [] else none)
            else
              match takeMembers cs.length cs with
              | some (m, rest) => if skipWs rest = [] then some m else none
              | none => none
      else none

theorem skipWs_ws (c : Char) (cs : List Char) (h : isWsChar c = true) :
    skipWs (c :: cs) = skipWs cs := by
  simp [skipWs, h]

theorem skipWs_not_ws (c : Char) (cs : List Char) (h : isWsChar c = false) :
    skipWs (c :: cs) = c :: cs := by
  simp [skipWs, h]

theorem string_mk_data (s : String) : String.mk s.data = s := by
  cases s
  rfl

theorem plainChar_spec (c : Char) (h : plainChar c = true) :
    c ≠ '"' ∧ c ≠ '\\' := by
  simp only [plainChar, Bool.and_eq_true, decide_eq_true_eq] at h
  exact ⟨h.1.2, h.2⟩

theorem takeStr_plain (s : List Char) (rest : List Char)
    (h : s.all plainChar = true) :
    takeStr (s ++ '"' :: rest) = some (s, rest) := by
  induction s with
  | nil => simp [takeStr]
  | cons c cs ih =>
      simp only [List.all_cons, Bool.and_eq_true] at h
      obtain ⟨h1, h2⟩ := plainChar_spec c h.1
      rw [List.cons_append, takeStr, if_neg h1, if_neg h2, ih h.2]
      rfl

theorem takeStrLit_plain (s : String) (rest : List Char)
    (h : plainStr s = true) :
    takeStrLit ('"' :: (s.data ++ '"' :: rest)) = some (s, rest) := by
  rw [takeStrLit, if_pos rfl, takeStr_plain s.data rest h]
  rfl

theorem entriesChars_length (m : Config) :
    m.length ≤ (entriesChars m).length := by
  induction m with
  | nil => simp [entriesChars]
  | cons kv m2 ih =>
      cases m2 with
      | nil => simp [entriesChars, entryChars]
      | cons kv2 m3 =>
          have : entriesChars (kv :: kv2 :: m3) =
              entryChars kv ++ ',' :: '\n' :: entriesChars (kv2 :: m3) := rfl
          rw [this]
          simp only [List.length_cons, List.length_append]
          simp only [List.length_cons] at ih
          omega

theorem takeMembers_skips_ws (fuel : Nat) (c : Char) (cs : List Char)
    (h : isWsChar c = true) (hf : fuel ≠ 0) :
    takeMembers fuel (c :: cs) = takeMembers fuel cs := by
  cases fuel with
  | zero => exact absurd rfl hf
  | succ f => simp only [takeMembers, skipWs_ws c cs h]

theorem takeMembers_eval (f : Nat) (cs u w t : List Char) (k v : String)
    (h1 : takeStrLit (skipWs cs) = some (k, u))
    (h2 : skipWs u = ':' :: w)
    (h3 : takeStrLit (skipWs w) = some (v, t)) :
    (∀ t4, skipWs t = '}' :: t4 →
      takeMembers (Nat.succ f) cs = some ([(k, v)], t4)) ∧
    (∀ t4 ms rest, skipWs t = ',' :: t4 → takeMembers f t4 = some (ms, rest) →
      takeMembers (Nat.succ f) cs = some ((k, v) :: ms, rest)) := by
  constructor
  · intro t4 ht
    simp [takeMembers, h1, h2, h3, ht]
  · intro t4 ms rest ht hrec
    simp [takeMembers, h1, h2, h3, ht, hrec]

theorem entry_append (k v : String) (tail : List Char) :
    entryChars (k, v) ++ tail =
      ' ' :: ' ' :: ' ' :: ' ' :: '"' ::
        (k.data ++ '"' :: ':' :: ' ' :: '"' :: (v.data ++ '"' :: tail)) := by
  simp [entryChars, List.append_assoc]

theorem entry_key_eval (k v : String) (tail : List Char)
    (hpk : plainStr k = true) :
    takeStrLit (skipWs (entryChars (k, v) ++ tail)) =
      some (k, ':' :: ' ' :: '"' :: (v.data ++ '"' :: tail)) := by
  rw [entry_append, skipWs_ws ' ' _ rfl, skipWs_ws ' ' _ rfl,
    skipWs_ws ' ' _ rfl, skipWs_ws ' ' _ rfl, skipWs_not_ws '"' _ rfl,
    takeStrLit_plain k _ hpk]

theorem entry_value_eval (v : String) (tail : List Char)
    (hpv : plainStr v = true) :
    takeStrLit (skipWs (' ' :: '"' :: (v.data ++ '"' :: tail))) =
      some (v, tail) := by
  rw [skipWs_ws ' ' _ rfl, skipWs_not_ws '"' _ rfl, takeStrLit_plain v _ hpv]

theorem takeMembers_entries (m : Config) (rest : List Char) (fuel : Nat)
    (hp : plainConfig m = true) (hm : m ≠ []) (hf : m.length ≤ fuel) :
    takeMembers fuel (entriesChars m ++ '\n' :: '}' :: rest) =
      some (m, rest) := by
  induction m generalizing fuel rest with
  | nil => exact absurd rfl hm
  | cons kv m2 ih =>
      obtain ⟨k, v⟩ := kv
      simp only [plainConfig, List.all_cons, Bool.and_eq_true] at hp
      obtain ⟨⟨hpk, hpv⟩, hp2⟩ := hp
      cases fuel with
      | zero => simp at hf
      | succ f =>
          cases m2 with
          | nil =>
              have heval := takeMembers_eval f
                (entriesChars [(k, v)] ++ '\n' :: '}' :: rest)
                (':' :: ' ' :: '"' :: (v.data ++ '"' :: '\n' :: '}' :: rest))
                (' ' :: '"' :: (v.data ++ '"' :: '\n' :: '}' :: rest))
                ('\n' :: '}' :: rest) k v
                (entry_key_eval k v ('\n' :: '}' :: rest) hpk)
                (skipWs_not_ws ':' _ rfl)
                (entry_value_eval v ('\n' :: '}' :: rest) hpv)
              exact heval.1 rest (by rw [skipWs_ws '\n' _ rfl, skipWs_not_ws '}' _ rfl])
          | cons kv2 m3 =>
              have hsplit : entriesChars ((k, v) :: kv2 :: m3) ++
                  '\n' :: '}' :: rest =
                  entryChars (k, v) ++ ',' :: '\n' ::
                    (entriesChars (kv2 :: m3) ++ '\n' :: '}' :: rest) := by
                show (entryChars (k, v) ++ ',' :: '\n' ::
                    entriesChars (kv2 :: m3)) ++ '\n' :: '}' :: rest = _
                simp [List.append_assoc]
              have hrec : takeMembers f
                  ('\n' :: (entriesChars (kv2 :: m3) ++ '\n' :: '}' :: rest)) =
                  some (kv2 :: m3, rest) := by
                cases f with
                | zero => simp at hf
                | succ f2 =>
                    rw [takeMembers_skips_ws _ '\n' _ rfl (Nat.succ_ne_zero f2)]
                    exact ih rest (Nat.succ f2) hp2 (by simp)
                      (by simpa using Nat.le_of_succ_le_succ hf)
              have heval := takeMembers_eval f
                (entriesChars ((k, v) :: kv2 :: m3) ++ '\n' :: '}' :: rest)
                (':' :: ' ' :: '"' :: (v.data ++ '"' :: ',' :: '\n' ::
                  (entriesChars (kv2 :: m3) ++ '\n' :: '}' :: rest)))
                (' ' :: '"' :: (v.data ++ '"' :: ',' :: '\n' ::
                  (entriesChars (kv2 :: m3) ++ '\n' :: '}' :: rest)))
                (',' :: '\n' ::
                  (entriesChars (kv2 :: m3) ++ '\n' :: '}' :: rest)) k v
                (by rw [hsplit]
                    exact entry_key_eval k v _ hpk)
                (skipWs_not_ws ':' _ rfl)
                (entry_value_eval v _ hpv)
              exact heval.2 ('\n' :: (entriesChars (kv2 :: m3) ++
                  '\n' :: '}' :: rest)) (kv2 :: m3) rest
                (skipWs_not_ws ',' _ rfl) hrec

theorem string_data_mk (l : List Char) : (String.mk l).data = l := rfl

theorem entriesChars_cons_append (kv : String × String) (m2 : Config)
    (tail : List Char) :
    ∃ T, entriesChars (kv :: m2) ++ tail = entryChars kv ++ T := by
  cases m2 with
  | nil => exact ⟨tail, rfl⟩
  | cons kv2 m3 =>
      refine ⟨',' :: '\n' :: (entriesChars (kv2 :: m3) ++ tail), ?_⟩
      show (entryChars kv ++ ',' :: '\n' :: entriesChars (kv2 :: m3)) ++ tail = _
      simp [List.append_assoc]

theorem parse_dump (m : Config) (hp : plainConfig m = true) :
    parseConfig (dumpConfig m) = some m := by
  cases m with
  | nil => rfl
  | cons kv m2 =>
      obtain ⟨k, v⟩ := kv
      obtain ⟨T, hT⟩ := entriesChars_cons_append (k, v) m2 ['\n', '}']
      have hshape : entriesChars ((k, v) :: m2) ++ ['\n', '}'] =
          ' ' :: ' ' :: ' ' :: ' ' :: '"' ::
            (k.data ++ '"' :: ':' :: ' ' :: '"' :: (v.data ++ '"' :: T)) := by
        rw [hT, entry_append]
      have h2 : skipWs ('\n' :: (entriesChars ((k, v) :: m2) ++ ['\n', '}'])) =
          '"' :: (k.data ++ '"' :: ':' :: ' ' :: '"' ::
            (v.data ++ '"' :: T)) := by
        rw [skipWs_ws '\n' _ rfl, hshape, skipWs_ws ' ' _ rfl,
          skipWs_ws ' ' _ rfl, skipWs_ws ' ' _ rfl, skipWs_ws ' ' _ rfl,
          skipWs_not_ws '"' _ rfl]
      have h3 : takeMembers
          ('\n' :: (entriesChars ((k, v) :: m2) ++ ['\n', '}'])).length
          ('\n' :: (entriesChars ((k, v) :: m2) ++ ['\n', '}'])) =
          some ((k, v) :: m2, []) := by
        rw [takeMembers_skips_ws _ '\n' _ rfl (by simp)]
        refine takeMembers_entries ((k, v) :: m2) [] _ hp (by simp) ?_
        have hlen := entriesChars_length ((k, v) :: m2)
        simp only [List.length_cons, List.length_append] at hlen ⊢
        omega
      show parseConfig (String.mk ('{' :: '\n' ::
        (entriesChars ((k, v) :: m2) ++ ['\n', '}']))) = some ((k, v) :: m2)
      simp only [parseConfig, string_data_mk, skipWs_not_ws '{' _ rfl]
      simp only [h2]
      rw [if_neg (show ¬(('"' : Char) = '}') by decide)]
      simp only [h3]
      simp [skipWs]

/-- Outcome classes of opening the configuration file for reading:
`FileNotFoundError`, a permission or other `OSError`, or the file text. -/
inductive ReadErr where
  | notFound
  | permission
deriving DecidableEq, Repr

/-- The state of the configuration file on disk: its contents (or absence)
and whether the process may read or write it. -/
structure FS where
  file : Option String
  readable : Bool
  writable : Bool
deriving DecidableEq, Repr

/-- Opening `CONFIG_FILE` for reading: missing file raises
`FileNotFoundError`, an unreadable file raises a permission error,
otherwise the text is returned. -/
def readFile (fs : FS) : Except ReadErr String :=
  match fs.file with
  | none => Except.error ReadErr.notFound
  | some s => if fs.readable then Except.ok s else Except.error ReadErr.permission

/-- Opening `CONFIG_FILE` for writing and writing `text`: fails with a
permission error when the path is write-protected, otherwise replaces the
file contents. -/
def writeFile (fs : FS) (text : String) : Except ReadErr FS :=
  if fs.writable then Except.ok { fs with file := some text }
  else Except.error ReadErr.permission

/-- Embedding of `load_config` from `Scripts/config_manager.py` (lines
32-53): read and `json.load` the file; the `FileNotFoundError`,
`json.JSONDecodeError` and generic `Exception` handlers all set
`config_data = {}` and return it. The function is total: no exception
escapes. -/
def load_config (fs : FS) : Config :=
  match readFile fs with
  | Except.ok s =>
      match parseConfig s with
      | some m => m
      | none => []
  | Except.error ReadErr.notFound => []
  | Except.error ReadErr.permission => []

/-- The full effect of `load_config` on the world: it returns the loaded
mapping and performs no write, so the file state passes through
unchanged (the code only ever opens the file with mode `"r"`). -/
def load_config_fs (fs : FS) : Config × FS := (load_config fs, fs)

/-- Embedding of `save_config(config)` from `Scripts/config_manager.py`
(lines 55-67). `globalCfg` is the module-level `config_data` before the
call. On success the file holds `json.dump(config, f, indent=4)` and
`config_data = config`; on any exception the global is not reassigned, the
file is untouched, and `messagebox.showerror` is called (the returned
flag). Result: (new `config_data`, new file state, error-dialog shown). -/
def save_config (globalCfg config : Config) (fs : FS) : Config × FS × Bool :=
  match writeFile fs (dumpConfig config) with
  | Except.ok fs2 => (config, fs2, false)
  | Except.error _ => (globalCfg, fs, true)

/-- Embedding of `clear_config_on_startup` from
`Scripts/config_manager.py` (lines 11-30): set `config_data = {}` and
write `json.dump({}, f, indent=4)`; if the write raises, the handler still
leaves `config_data = {}` and returns `False`. Result: (in-memory mapping,
file state, returned success flag). -/
def clear_config_on_startup (fs : FS) : Config × FS × Bool :=
  match writeFile fs (dumpConfig []) with
  | Except.ok fs2 => ([], fs2, true)
  | Except.error _ => ([], fs, false)

/-- Embedding of the configuration part of `run_app` from
`Scripts/main_window.py` (lines 749-798): unless `--keep-config` is among
the command-line arguments, `clear_config_on_startup()` runs first; then
`load_config()` reloads `config_data` from the file. Result: (in-memory
mapping after startup, file state after startup). -/
def run_app_startup (args : List String) (fs : FS) : Config × FS :=
  if args.contains "--keep-config" then (load_config fs, fs)
  else
    let r := clear_config_on_startup fs
    (load_config r.2.1, r.2.1)

/-- C2: for every mapping of valid (escape-free printable ASCII)
pin-to-function assignments, saving it with `save_config` and loading the
resulting file back with `load_config` reproduces the mapping exactly, as
a list equality that preserves both key order and values. -/
theorem save_load_round_trip (g m : Config) (fs : FS)
    (hw : fs.writable = true) (hr : fs.readable = true)
    (hp : plainConfig m = true) :
    load_config (save_config g m fs).2.1 = m := by
  have hsave : (save_config g m fs).2.1 =
      { fs with file := some (dumpConfig m) } := by
    simp [save_config, writeFile, hw]
  rw [hsave]
  simp [load_config, readFile, hr, parse_dump m hp]

/-- Witness for `save_load_round_trip`: a concrete two-entry mapping
survives the save/load round trip on a readable, writable file. -/
theorem save_load_round_trip_witness :
    load_config (save_config []
      [("13", "Landing Gear Control"), ("2,3", "Analog Input Module")]
      ⟨some "old", true, true⟩).2.1 =
      [("13", "Landing Gear Control"), ("2,3", "Analog Input Module")] :=
  save_load_round_trip []
    [("13", "Landing Gear Control"), ("2,3", "Analog Input Module")]
    ⟨some "old", true, true⟩ rfl rfl (by decide)

/-- C3: for every failure mode of reading the configuration file (file
missing, permission error, malformed JSON), `load_config` returns the empty
mapping; it is a total function (no exception escapes) and performs no
write, so the file state is unchanged. -/
theorem load_config_failure (fs : FS)
    (h : (∃ e, readFile fs = Except.error e) ∨
      (∃ s, readFile fs = Except.ok s ∧ parseConfig s = none)) :
    load_config fs = [] ∧ load_config_fs fs = ([], fs) := by
  have hl : load_config fs = [] := by
    rcases h with ⟨e, he⟩ | ⟨s, hs, hp⟩
    · cases e <;> simp [load_config, he]
    · simp [load_config, hs, hp]
  exact ⟨hl, by simp [load_config_fs, hl]⟩

/-- Witness for `load_config_failure`: a file holding non-JSON text loads
as the empty mapping and the file is untouched. -/
theorem load_config_failure_witness :
    load_config ⟨some "oops", true, true⟩ = [] ∧
    load_config_fs ⟨some "oops", true, true⟩ =
      ([], ⟨some "oops", true, true⟩) :=
  load_config_failure ⟨some "oops", true, true⟩
    (Or.inr ⟨"oops", rfl, by decide⟩)

/-- C4: if writing the configuration file fails, `save_config` surfaces the
error to the operator (the `messagebox.showerror` flag is true), leaves the
module-level `config_data` at its value from before the attempted save, and
leaves the file unchanged. -/
theorem save_config_failure (g m : Config) (fs : FS)
    (hw : fs.writable = false) :
    save_config g m fs = (g, fs, true) := by
  simp [save_config, writeFile, hw]

/-- Witness for `save_config_failure`: saving to a write-protected path
shows the error and keeps the previous in-memory mapping. -/
theorem save_config_failure_witness :
    save_config [("5", "Relay Control")]
      [("5", "Relay Control"), ("13", "Landing Gear Control")]
      ⟨some "old", true, false⟩ =
      ([("5", "Relay Control")], ⟨some "old", true, false⟩, true) :=
  save_config_failure [("5", "Relay Control")]
    [("5", "Relay Control"), ("13", "Landing Gear Control")]
    ⟨some "old", true, false⟩ rfl

/-- C9 counterexample: with the configuration file write-protected but
readable and holding a saved assignment, default-mode startup (no
`--keep-config`) ends with the prior assignment back in memory: the
clearing write fails and the subsequent `load_config()` re-reads the old
file, so saved assignments DO survive this restart, contradicting the
claim that they never survive a restart in the default mode. -/
theorem startup_clear_counterexample :
    (run_app_startup []
        ⟨some (dumpConfig [("13", "Landing Gear Control")]), true, false⟩).1 =
      [("13", "Landing Gear Control")] ∧
    (run_app_startup []
        ⟨some (dumpConfig [("13", "Landing Gear Control")]), true, false⟩).1 ≠
      [] := by
  constructor
  · decide
  · decide

/-- C9 (amended): on default-mode startup the clear step always leaves the
in-memory mapping empty (even when the file write fails); when the write
succeeds the file is overwritten with the empty JSON object and startup
ends with an empty mapping; but when the write fails, startup reloads the
untouched file, so prior assignments survive exactly when the clearing
write fails. -/
theorem startup_clear_behavior (args : List String) (fs : FS)
    (h : args.contains "--keep-config" = false) :
    (clear_config_on_startup fs).1 = [] ∧
    (fs.writable = true →
      clear_config_on_startup fs =
        ([], { fs with file := some (dumpConfig []) }, true)) ∧
    (fs.writable = true → fs.readable = true →
      run_app_startup args fs =
        ([], { fs with file := some (dumpConfig []) })) ∧
    (fs.writable = false → run_app_startup args fs = (load_config fs, fs)) := by
  have hp0 : parseConfig (dumpConfig []) = some [] := by decide
  refine ⟨?_, ?_, ?_, ?_⟩
  · cases hb : fs.writable <;> simp [clear_config_on_startup, writeFile, hb]
  · intro hw
    simp [clear_config_on_startup, writeFile, hw]
  · intro hw hr
    rw [run_app_startup, if_neg (by rw [h]; exact Bool.false_ne_true)]
    simp [clear_config_on_startup, writeFile, hw, load_config, readFile,
      hr, hp0]
  · intro hw
    rw [run_app_startup, if_neg (by rw [h]; exact Bool.false_ne_true)]
    simp [clear_config_on_startup, writeFile, hw]

/-- Witness for `startup_clear_behavior`: a writable, readable file holding
junk is replaced by the empty JSON object and startup ends empty. -/
theorem startup_clear_behavior_witness :
    run_app_startup [] ⟨some "junk", true, true⟩ =
      ([], (⟨some (dumpConfig []), true, true⟩ : FS)) :=
  (startup_clear_behavior [] ⟨some "junk", true, true⟩ rfl).2.2.1 rfl rfl

/-- Events visible at the mic push-to-talk state machine: the
`STANDBY -> ACTIVE` transition (start audio monitoring, "KEY UP") and the
`ACTIVE -> STANDBY` transition (stop audio monitoring, "STAND-BY"). -/
inductive MicEvent where
  | toActive
  | toStandby
deriving DecidableEq, Repr

/-- Embedding of one iteration of `pin_monitor_thread` in
`start_pin_monitoring` (`Scripts/main_window.py` lines 624-674), mic part
only: the body runs only when `is_mic_and_analog_configured(config_data)`
holds; a read of `0` with `keyed_up` false sets `keyed_up` and emits the
activation, a read of `1` with `keyed_up` true clears it and emits the
deactivation, anything else changes nothing. Returns the new `keyed_up`
and the emitted transitions. -/
def micStep (cfg : Config) (keyedUp : Bool) (pinState : Nat) :
    Bool × List MicEvent :=
  if is_mic_and_analog_configured cfg then
    if pinState == 0 && !keyedUp then (true, [MicEvent.toActive])
    else if pinState == 1 && keyedUp then (false, [MicEvent.toStandby])
    else (keyedUp, [])
  else (keyedUp, [])

/-- Iterated monitoring ticks over a trace of mic-pin samples, collecting
every emitted transition in order. -/
def micRun (cfg : Config) (keyedUp : Bool) : List Nat → Bool × List MicEvent
  | [] => (keyedUp, [])
  | p :: ps =>
      let s := micStep cfg keyedUp p
      let r := micRun cfg s.1 ps
      (r.1, s.2 ++ r.2)

theorem micRun_hold_active (cfg : Config)
    (h : is_mic_and_analog_configured cfg = true) (n : Nat) :
    micRun cfg true (List.replicate n 0) = (true, []) := by
  induction n with
  | zero => rfl
  | succ k ih =>
      rw [List.replicate_succ]
      simp [micRun, micStep, h, ih]

theorem micRun_hold_standby (cfg : Config)
    (h : is_mic_and_analog_configured cfg = true) (n : Nat) :
    micRun cfg false (List.replicate n 1) = (false, []) := by
  induction n with
  | zero => rfl
  | succ k ih =>
      rw [List.replicate_succ]
      simp [micRun, micStep, h, ih]

/-- C5 counterexample: with only `"Mic Control"` assigned (to pin 4) and no
`"Analog Input Module"`, the monitoring loop's guard
`is_mic_and_analog_configured` is false, so holding the mic pin at 0 for
three consecutive ticks emits NO transition at all — not the exactly one
`STANDBY -> ACTIVE` transition the claim asserts. -/
theorem mic_hold_counterexample :
    is_mic_and_analog_configured [("4", "Mic Control")] = false ∧
    (micRun [("4", "Mic Control")] false [0, 0, 0]).2 = [] ∧
    (micRun [("4", "Mic Control")] false [0, 0, 0]).2.count
      MicEvent.toActive ≠ 1 := by
  refine ⟨by decide, by decide, by decide⟩

/-- C5 (amended): when both `"Mic Control"` AND `"Analog Input Module"` are
configured, holding the mic pin at 0 across three or more consecutive ticks
emits exactly one `STANDBY -> ACTIVE` transition (not one per tick), and
then releasing the pin to 1 for any number of ticks emits exactly one
`ACTIVE -> STANDBY` transition. -/
theorem mic_edge_trigger (cfg : Config)
    (h : is_mic_and_analog_configured cfg = true) (n m : Nat)
    (hn : 3 ≤ n) (hm : 1 ≤ m) :
    micRun cfg false (List.replicate n 0) = (true, [MicEvent.toActive]) ∧
    (micRun cfg false (List.replicate n 0)).2.count MicEvent.toActive = 1 ∧
    micRun cfg true (List.replicate m 1) = (false, [MicEvent.toStandby]) ∧
    (micRun cfg true (List.replicate m 1)).2.count MicEvent.toStandby = 1 := by
  obtain ⟨k, rfl⟩ : ∃ k, n = k + 1 := ⟨n - 1, by omega⟩
  obtain ⟨j, rfl⟩ : ∃ j, m = j + 1 := ⟨m - 1, by omega⟩
  have hdown : micRun cfg false (List.replicate (k + 1) 0) =
      (true, [MicEvent.toActive]) := by
    rw [List.replicate_succ]
    simp [micRun, micStep, h, micRun_hold_active cfg h k]
  have hup : micRun cfg true (List.replicate (j + 1) 1) =
      (false, [MicEvent.toStandby]) := by
    rw [List.replicate_succ]
    simp [micRun, micStep, h, micRun_hold_standby cfg h j]
  refine ⟨hdown, by rw [hdown]; rfl, hup, by rw [hup]; rfl⟩

/-- Witness for `mic_edge_trigger`: with mic control on pin 4 and the
analog module both assigned, three grounded ticks then one released tick
produce exactly one activation and one deactivation. -/
theorem mic_edge_trigger_witness :
    micRun [("4", "Mic Control"), ("2,3", "Analog Input Module")] false
      (List.replicate 3 0) = (true, [MicEvent.toActive]) :=
  (mic_edge_trigger [("4", "Mic Control"), ("2,3", "Analog Input Module")]
    (by decide) 3 1 (by decide) (by decide)).1

/-- Embedding of the per-tick smoothing update used identically for all
three gauge channels in `start_analog_monitoring`
(`Scripts/control_panel.py` lines 673-789), e.g.
`smoothed_pot = (pot_pct * 0.2) + (smoothed_pot * 0.8)`. -/
def emaStep (newVal smoothed : ℚ) : ℚ := newVal * 0.2 + smoothed * 0.8

/-- The smoothed value after `n` ticks of a constant per-tick input `x`,
starting from the initial smoothed value `s0`. -/
def emaRun (x s0 : ℚ) : Nat → ℚ
  | 0 => s0
  | n + 1 => emaStep x (emaRun x s0 n)

/-- Embedding of the raw-to-percentage conversion
`pct = (raw / 65535) * 100` of `start_analog_monitoring`. -/
def raw_to_pct (raw : ℚ) : ℚ := raw / 65535 * 100

theorem emaRun_sub (x s0 : ℚ) (n : Nat) :
    emaRun x s0 n - x = (0.8 : ℚ) ^ n * (s0 - x) := by
  induction n with
  | zero => simp [emaRun]
  | succ n ih =>
      show emaStep x (emaRun x s0 n) - x = _
      have hstep : emaStep x (emaRun x s0 n) - x =
          (0.8 : ℚ) * (emaRun x s0 n - x) := by
        unfold emaStep
        ring
      rw [hstep, ih, pow_succ]
      ring

/-- C6: the smoothing step of every analog channel is the exponential
moving average `smoothed = 0.2 * new + 0.8 * smoothed`, and holding any
constant raw ADC count (0-65535) for at least 50 ticks brings the smoothed
value within 1 percentage point of the raw-derived percentage, from any
initial smoothed value in [0, 100]. -/
theorem ema_convergence (raw s0 : ℚ) (n : Nat)
    (hr0 : 0 ≤ raw) (hr1 : raw ≤ 65535)
    (hs0 : 0 ≤ s0) (hs1 : s0 ≤ 100) (hn : 50 ≤ n) :
    (∀ a b : ℚ, emaStep a b = 0.2 * a + 0.8 * b) ∧
    |emaRun (raw_to_pct raw) s0 n - raw_to_pct raw| ≤ 1 := by
  refine ⟨fun a b => by unfold emaStep; ring, ?_⟩
  have hx0 : 0 ≤ raw_to_pct raw := by
    unfold raw_to_pct
    positivity
  have hx1 : raw_to_pct raw ≤ 100 := by
    unfold raw_to_pct
    have hdiv : raw / 65535 ≤ 1 := by
      rw [div_le_one (by norm_num : (0 : ℚ) < 65535)]
      exact hr1
    nlinarith
  rw [emaRun_sub, abs_mul, abs_of_nonneg (pow_nonneg (by norm_num) n)]
  have habs : |s0 - raw_to_pct raw| ≤ 100 := by
    rw [abs_le]
    constructor <;> linarith
  have hle : (0.8 : ℚ) ^ n ≤ (0.8 : ℚ) ^ 50 :=
    pow_le_pow_of_le_one (by norm_num) (by norm_num) hn
  have hfinal : (0.8 : ℚ) ^ 50 * 100 ≤ 1 := by norm_num
  calc (0.8 : ℚ) ^ n * |s0 - raw_to_pct raw| ≤ (0.8 : ℚ) ^ 50 * 100 :=
        mul_le_mul hle habs (abs_nonneg _) (pow_nonneg (by norm_num) 50)
    _ ≤ 1 := hfinal

/-- Witness for `ema_convergence`: a full-scale constant input (raw 65535,
i.e. 100 percent) held for 50 ticks starting from a smoothed value of 0. -/
theorem ema_convergence_witness :
    |emaRun (raw_to_pct 65535) 0 50 - raw_to_pct 65535| ≤ 1 :=
  (ema_convergence 65535 0 50 (by norm_num) (by norm_num) (by norm_num)
    (by norm_num) (by norm_num)).2

/-- Gear indicator color derived from a pin state in `update_indicators`
(`Scripts/control_panel.py` lines 503-559): state 1 renders green (down and
locked under the pull-up convention), state 0 renders red. -/
def gear_color (state : Bool) : String := if state then "green" else "red"

/-- Nav-light indicator color derived from a pin state in
`update_indicators`: state 1 renders yellow, state 0 renders gray. -/
def nav_color (state : Bool) : String := if state then "yellow" else "gray"

/-- The indicator colors one tick of `update_indicators` paints: the three
gear lamps when `"Landing Gear Control"` is configured and the three nav
lamps when `"Nav Light Toggle"` is configured (`none` = untouched). -/
structure IndicatorView where
  nose : Option String
  left : Option String
  right : Option String
  navLeft : Option String
  navRight : Option String
  navTail : Option String
deriving DecidableEq, Repr

/-- The pure indicator computation of one `update_indicators` tick. -/
def indicator_view (cfg : Config) (pinState : Nat → Bool) : IndicatorView :=
  { nose := if is_function_configured cfg "Landing Gear Control" then
      some (gear_color (pinState NOSE_GEAR_PIN)) else none
    left := if is_function_configured cfg "Landing Gear Control" then
      some (gear_color (pinState LEFT_GEAR_PIN)) else none
    right := if is_function_configured cfg "Landing Gear Control" then
      some (gear_color (pinState RIGHT_GEAR_PIN)) else none
    navLeft := if is_function_configured cfg "Nav Light Toggle" then
      some (nav_color (pinState LEFT_NAV_PIN)) else none
    navRight := if is_function_configured cfg "Nav Light Toggle" then
      some (nav_color (pinState RIGHT_NAV_PIN)) else none
    navTail := if is_function_configured cfg "Nav Light Toggle" then
      some (nav_color (pinState TAIL_NAV_PIN)) else none }

/-- Embedding of one tick of `update_indicators` including its exception
handling: a normal tick paints the view and re-schedules itself with
`self.root.after(200, ...)`; a tick in which any exception is raised paints
nothing and the handler re-schedules with `self.root.after(1000, ...)`.
Result: (painted view if any, re-schedule delay in ms). -/
def update_indicators (cfg : Config) (pinState : Nat → Bool)
    (excRaised : Bool) : Option IndicatorView × Nat :=
  if excRaised then (none, 1000)
  else (some (indicator_view cfg pinState), 200)

/-- The re-schedule delays over a trace of tick outcomes: the loop runs one
tick per scheduled callback and each tick schedules the next. -/
def run_indicator_loop (cfg : Config) (pinState : Nat → Bool) :
    List Bool → List Nat
  | [] => []
  | exc :: rest =>
      (update_indicators cfg pinState exc).2 ::
        run_indicator_loop cfg pinState rest

/-- C7: every tick of the indicator loop re-schedules itself — with the
normal 200ms period on success and a 1000ms backoff when an exception was
caught — and over any trace of tick outcomes the loop schedules exactly one
follow-up per tick (delays 200 or 1000, never an absent reschedule), so a
single bad read never permanently kills the loop. -/
theorem update_indicators_reschedule (cfg : Config) (pinState : Nat → Bool)
    (excs : List Bool) :
    (∀ exc, (update_indicators cfg pinState exc).2 =
      if exc then 1000 else 200) ∧
    run_indicator_loop cfg pinState excs =
      excs.map (fun exc => if exc then 1000 else 200) ∧
    (run_indicator_loop cfg pinState excs).length = excs.length := by
  have hmap : run_indicator_loop cfg pinState excs =
      excs.map (fun exc => if exc then 1000 else 200) := by
    induction excs with
    | nil => rfl
    | cons e rest ih =>
        cases e <;> simp [run_indicator_loop, update_indicators, ih]
  refine ⟨?_, hmap, by rw [hmap]; simp⟩
  intro exc
  cases exc <;> rfl

/-- The two interchangeable implementations behind the Hardware
Abstraction of `Scripts/gpio_handler.py`: real `RPi.GPIO`, or the
in-memory mock module. -/
inductive GpioImpl where
  | real
  | simulated
deriving DecidableEq, Repr

/-- Embedding of the module-initialization selection in
`Scripts/gpio_handler.py` (lines 36-107): on win32 the mock is used
unconditionally; otherwise `import RPi.GPIO` is attempted and the
`ImportError` handler falls back to the mock. Selection itself is total —
it never raises. -/
def select_gpio_impl (platformWin32 importOk : Bool) : GpioImpl :=
  if platformWin32 then GpioImpl.simulated
  else if importOk then GpioImpl.real
  else GpioImpl.simulated

/-- The mock `GPIO.state` dictionary, keyed by pin number. -/
def sim_state_set : List (Nat × Nat) → Nat → Nat → List (Nat × Nat)
  | [], p, v => [(p, v)]
  | (p0, v0) :: rest, p, v =>
      if p0 = p then (p, v) :: rest else (p0, v0) :: sim_state_set rest p v

/-- Mock `GPIO.setup`: `lambda x, y, pull_up_down=None: None` — a no-op. -/
def sim_setup (st : List (Nat × Nat)) (pin : Nat) (mode : String) :
    Except String (List (Nat × Nat)) :=
  Except.ok st

/-- Mock `GPIO.output` (`mock_output`): records the value in
`GPIO.state[pin]`. -/
def sim_output (st : List (Nat × Nat)) (pin v : Nat) :
    Except String (List (Nat × Nat)) :=
  Except.ok (sim_state_set st pin v)

/-- Mock `GPIO.input` (`mock_input`): `GPIO.state.get(pin, 1)` — the last
recorded value, defaulting to 1 (idle) for a pin never written. -/
def sim_input (st : List (Nat × Nat)) (pin : Nat) : Except String Nat :=
  Except.ok ((st.lookup pin).getD 1)

/-- Mock `GPIO.cleanup`: `lambda: None` — a no-op. -/
def sim_cleanup (st : List (Nat × Nat)) : Except String (List (Nat × Nat)) :=
  Except.ok st

/-- True exactly when an operation completed without raising. -/
def except_succeeded {ε α : Type} : Except ε α → Bool
  | Except.ok _ => true
  | Except.error _ => false

/-- C8: when the real GPIO driver cannot be imported, or the platform does
not support it (win32), initialization selects the simulated
implementation without raising, and on it all four Hardware Abstraction
operations — setup, output, input, cleanup — succeed without raising for
every pin, value and state; input moreover returns the recorded value or
the idle default 1. -/
theorem gpio_fallback (win32 importOk : Bool) (st : List (Nat × Nat))
    (pin v : Nat) (mode : String)
    (h : importOk = false ∨ win32 = true) :
    select_gpio_impl win32 importOk = GpioImpl.simulated ∧
    except_succeeded (sim_setup st pin mode) = true ∧
    except_succeeded (sim_output st pin v) = true ∧
    except_succeeded (sim_input st pin) = true ∧
    except_succeeded (sim_cleanup st) = true ∧
    sim_input st pin = Except.ok ((st.lookup pin).getD 1) := by
  refine ⟨?_, rfl, rfl, rfl, rfl, rfl⟩
  rcases h with h | h
  · subst h
    cases win32 <;> simp [select_gpio_impl]
  · subst h
    simp [select_gpio_impl]

/-- Witness for `gpio_fallback`: a failed import on a non-win32 platform
selects the simulated implementation, whose input on a never-written pin
reads idle 1. -/
theorem gpio_fallback_witness :
    select_gpio_impl false false = GpioImpl.simulated ∧
    sim_input [] 13 = Except.ok 1 :=
  ⟨(gpio_fallback false false [] 13 0 "IN" (Or.inl rfl)).1,
    (gpio_fallback false false [] 13 0 "IN" (Or.inl rfl)).2.2.2.2.2⟩

end TAVA